import Mathlib

/-!
Shallow embedding of the live presence and location synchronization core of
the bus-tracker repository: the fleet subscription and demo fallback
(src/lib/busService.js), the presence listener and staleness rendering
(src/App.jsx), the map centroid (src/App.jsx getMapCenter), and the sharing
session lifecycle (src/hooks/useLocationSharing.js with
src/lib/locationService.js).
-/

namespace BusTracker

/-- Value stored in a timestamp-typed field of a document. Firestore
server timestamps expose a seconds component; a raw JS Date does not
(accessing .seconds on it yields undefined); a field may also be absent. -/
inductive TimestampVal where
  | missing
  | firestore (seconds : ℤ)
  | jsDate (ms : ℤ)
  deriving DecidableEq

/-- JS truthiness of an optional numeric coordinate: a missing field and the
number 0 are falsy, every other number is truthy. This is the test written
as busData.latitude && busData.longitude in busService.js line 37 and the
identical guards in App.jsx. -/
def validCoord : Option ℚ → Bool
  | none => false
  | some q => decide (q ≠ 0)

/-- A document of the buses collection as consumed by subscribeToBusLocations
(busService.js lines 28-40): doc.id plus the spread data fields. -/
structure BusDoc where
  id : String
  busId : String
  latitude : Option ℚ
  longitude : Option ℚ
  route : String
  status : String
  speed : Option ℚ
  heading : Option ℚ
  lastUpdated : TimestampVal
  deriving DecidableEq

/-- The sort key used by subscribeToBusLocations (busService.js lines 84-88):
a.lastUpdated?.seconds || 0, so any value without a seconds component
contributes 0. -/
def sortKey (b : BusDoc) : ℤ :=
  match b.lastUpdated with
  | TimestampVal.firestore s => s
  | _ => 0

/-- Stable insertion into a descending-by-sortKey list, modelling the JS
stable Array.prototype.sort with comparator bTime - aTime. -/
def insertDesc (x : BusDoc) : List BusDoc → List BusDoc
  | [] => [x]
  | y :: ys => if sortKey x < sortKey y then y :: insertDesc x ys else x :: y :: ys

/-- Descending stable sort by sortKey (busService.js lines 83-88). -/
def sortDesc : List BusDoc → List BusDoc
  | [] => []
  | x :: xs => insertDesc x (sortDesc xs)

/-- First demo bus literal of busService.js (lines 45-55 and again lines
95-105 in the error handler); its lastUpdated is new Date() at handler time. -/
def demoBus1 (nowMs : ℤ) : BusDoc :=
  { id := "demo-bus-1", busId := "B001"
    latitude := some (40.7128 : ℚ), longitude := some (-74.0060 : ℚ)
    route := "Route 1 - Downtown", status := "active"
    speed := some 25, heading := some 90
    lastUpdated := TimestampVal.jsDate nowMs }

/-- Second demo bus literal of busService.js (lines 56-66). -/
def demoBus2 (nowMs : ℤ) : BusDoc :=
  { id := "demo-bus-2", busId := "B002"
    latitude := some (40.7589 : ℚ), longitude := some (-73.9851 : ℚ)
    route := "Route 2 - Uptown", status := "active"
    speed := some 30, heading := some 180
    lastUpdated := TimestampVal.jsDate nowMs }

/-- Third demo bus literal of busService.js (lines 67-77). -/
def demoBus3 (nowMs : ℤ) : BusDoc :=
  { id := "demo-bus-3", busId := "B003"
    latitude := some (40.7505 : ℚ), longitude := some (-73.9934 : ℚ)
    route := "Route 3 - Crosstown", status := "maintenance"
    speed := some 0, heading := some 0
    lastUpdated := TimestampVal.jsDate nowMs }

/-- The three-entry demo fleet substituted on an empty filtered snapshot
(busService.js lines 43-79). -/
def demoBuses (nowMs : ℤ) : List BusDoc :=
  [demoBus1 nowMs, demoBus2 nowMs, demoBus3 nowMs]

/-- The snapshot handler of subscribeToBusLocations (busService.js lines
28-90): keep docs with truthy coordinates; if none remain, hand the demo
fleet to the callback, otherwise the docs sorted descending by
lastUpdated seconds. -/
def snapshotHandler (nowMs : ℤ) (docs : List BusDoc) : List BusDoc :=
  let buses := docs.filter (fun b => validCoord b.latitude && validCoord b.longitude)
  if buses.length = 0 then demoBuses nowMs
  else sortDesc buses

/-- The error handler of subscribeToBusLocations (busService.js lines
91-108): the callback is invoked with a one-entry demo list; the error
itself is only logged. -/
def errorHandlerOutput (nowMs : ℤ) : List BusDoc :=
  [demoBus1 nowMs]

/-- A document of the driverLocations collection, i.e. the PresenceRecord
written by startLocationSharing (locationService.js lines 38-53) as read
back by listenToDriverLocations. -/
structure DriverDoc where
  id : String
  userId : String
  email : String
  displayName : String
  busNumber : String
  route : String
  latitude : Option ℚ
  longitude : Option ℚ
  accuracy : ℚ
  heading : ℚ
  speed : ℚ
  timestamp : TimestampVal
  isActive : Bool
  lastSeen : TimestampVal
  createdAt : TimestampVal
  deriving DecidableEq

/-- The presence listener (locationService.js lines 208-224): the query
keeps documents with isActive == true. -/
def listenSnapshot (docs : List DriverDoc) : List DriverDoc :=
  docs.filter (fun d => d.isActive)

/-- The recency test of the driver marker (App.jsx lines 861-862):
driver.timestamp && now - timestamp.seconds * 1000 < 300000, with a falsy
or seconds-less timestamp giving false. -/
def isRecent (nowMs : ℤ) (ts : TimestampVal) : Bool :=
  match ts with
  | TimestampVal.firestore s => decide (nowMs - s * 1000 < 300000)
  | _ => false

/-- Derived staleness flag of a presence entry: the negation of isRecent. -/
def isStale (nowMs : ℤ) (ts : TimestampVal) : Bool :=
  ! isRecent nowMs ts

/-- The rendered driver markers (App.jsx lines 858-868): one marker per
presence entry with truthy coordinates, carrying its recency flag (which
only selects the icon); staleness never filters an entry out. -/
def driverMarkers (nowMs : ℤ) (drivers : List DriverDoc) : List (String × Bool) :=
  drivers.filterMap (fun d =>
    if validCoord d.latitude && validCoord d.longitude then
      some (d.id, isRecent nowMs d.timestamp)
    else none)

/-- The rendered bus markers (App.jsx lines 819-821): entries without truthy
coordinates render no marker. -/
def busMarkers (buses : List BusDoc) : List String :=
  buses.filterMap (fun b =>
    if validCoord b.latitude && validCoord b.longitude then some b.id
    else none)

/-- Default map center: New York City (App.jsx line 680). -/
def defaultCenter : ℚ × ℚ := ((40.7128 : ℚ), (-74.0060 : ℚ))

/-- getMapCenter (App.jsx lines 683-695): the arithmetic mean of latitudes
and of longitudes over the fleet and presence entries with truthy
coordinates, or the default center when no entry qualifies. -/
def getMapCenter (buses : List BusDoc) (drivers : List DriverDoc) : ℚ × ℚ :=
  let busLocs := (buses.filter (fun b => validCoord b.latitude && validCoord b.longitude)).map
    (fun b => (b.latitude.getD 0, b.longitude.getD 0))
  let drvLocs := (drivers.filter (fun d => validCoord d.latitude && validCoord d.longitude)).map
    (fun d => (d.latitude.getD 0, d.longitude.getD 0))
  let allLocations := busLocs ++ drvLocs
  if allLocations.length = 0 then defaultCenter
  else
    ((allLocations.map Prod.fst).sum / (allLocations.length : ℚ),
     (allLocations.map Prod.snd).sum / (allLocations.length : ℚ))

/-- The rider-facing merged view: the fleet entries delivered by the bus
subscription next to the presence entries delivered by the driver listener
(App.jsx renders both marker groups from the same two latest snapshots). -/
inductive MergedEntity where
  | fleet (b : BusDoc)
  | presence (d : DriverDoc)
  deriving DecidableEq

/-- Merge of the two latest snapshots into one entity list. -/
def mergeView (buses : List BusDoc) (drivers : List DriverDoc) : List MergedEntity :=
  buses.map MergedEntity.fleet ++ drivers.map MergedEntity.presence

/-- A geolocation position as consumed by the session (coords plus the
defaulted heading and speed of locationService.js lines 47-48). -/
structure GeoPos where
  latitude : ℚ
  longitude : ℚ
  accuracy : ℚ
  heading : Option ℚ
  speed : Option ℚ
  deriving DecidableEq

/-- Browser permission states tracked by the hook (strings granted, denied,
unknown, unavailable in useLocationSharing.js). -/
inductive PermState where
  | unknown
  | granted
  | denied
  | unavailable
  deriving DecidableEq

/-- Externally visible side effects of the session: one-shot position
requests, store writes and deletes, watch registration changes. -/
inductive Effect where
  | positionRequest
  | storeCreate
  | storeWrite
  | storeDelete
  | watchClear
  | watchStart
  deriving DecidableEq

/-- The state owned by one driver session: the useLocationSharing hook state
(isSharing, loading, error, locationPermission, currentPosition, accuracy,
watchIdRef) together with the existence of this driver's document in the
driverLocations store. -/
structure World where
  sharing : Bool
  loading : Bool
  error : String
  permission : PermState
  currentPosition : Option GeoPos
  accuracy : Option ℚ
  watch : Bool
  record : Bool
  deriving DecidableEq

/-- Fresh hook state: nothing shared, no watch, no record, permission
unknown. -/
def initWorld : World :=
  { sharing := false, loading := false, error := ""
    permission := PermState.unknown, currentPosition := none
    accuracy := none, watch := false, record := false }

/-- Outcome of the acquisition step inside startSharing, i.e. of
startLocationSharing (locationService.js lines 17-68): the one-shot fetch
may fail, the full-field create may fail, or both succeed yielding the
position. -/
inductive AcqOutcome where
  | fetchFail (msg : String)
  | writeFail (msg : String)
  | ok (pos : GeoPos)
  deriving DecidableEq

/-- Capability-gate failure message (useLocationSharing.js line 100). -/
def capabilityDeniedMsg : String := "Only verified drivers can share location"

/-- The permission-request condition of startSharing (useLocationSharing.js
line 114): request only when the tracked permission is neither granted
nor unknown. -/
def needsPermissionRequest (w : World) : Bool :=
  w.permission != PermState.granted && w.permission != PermState.unknown

/-- The acquisition phase of startSharing (useLocationSharing.js lines
130-150 over startLocationSharing): a one-shot fetch, then the full-field
create; on success the hook records the position, sets isSharing and
starts the watch (clearing a previous handle first); on failure only loading
and the error change. -/
def acquirePhase (acq : AcqOutcome) (permEff : List Effect) (w2 : World) :
    World × Bool × List Effect :=
  match acq with
  | AcqOutcome.fetchFail msg =>
    ({w2 with error := msg, loading := false}, false,
     permEff ++ [Effect.positionRequest])
  | AcqOutcome.writeFail msg =>
    ({w2 with error := msg, loading := false}, false,
     permEff ++ [Effect.positionRequest, Effect.storeCreate])
  | AcqOutcome.ok pos =>
    ({w2 with record := true, sharing := true, currentPosition := some pos,
              accuracy := some pos.accuracy, watch := true, loading := false},
     true,
     permEff ++ [Effect.positionRequest, Effect.storeCreate]
       ++ (if w2.watch then [Effect.watchClear] else []) ++ [Effect.watchStart])

/-- startSharing (useLocationSharing.js lines 90-159). Branch order as in
the source: capability gate, auth gate, optional permission request (only
when the tracked permission is neither granted nor unknown), then the
acquisition. permFail is the outcome of the permission one-shot (none =
granted); acq is the acquisition outcome. Returns the new state, the
success flag, and the effects issued. -/
def startSharing (isDriver isVerified hasUser hasProfile : Bool)
    (permFail : Option String) (acq : AcqOutcome) (w : World) :
    World × Bool × List Effect :=
  if !(isDriver && isVerified) then
    ({w with error := capabilityDeniedMsg}, false, [])
  else if !(hasUser && hasProfile) then
    ({w with error := "User not authenticated"}, false, [])
  else
    if needsPermissionRequest w then
      match permFail with
      | some msg =>
        ({w with loading := false, error := msg, permission := PermState.denied},
         false, [Effect.positionRequest])
      | none =>
        acquirePhase acq [Effect.positionRequest]
          {w with loading := true, error := "", permission := PermState.granted}
    else
      acquirePhase acq [] {w with loading := true, error := ""}

/-- Outcome of the delete inside stopSharing: deleteDoc succeeds, deleteDoc
fails with a message, or the call throws before completing. -/
inductive StopOutcome where
  | ok
  | deleteFail (msg : String)
  | threw
  deriving DecidableEq

/-- stopSharing (useLocationSharing.js lines 161-196): clear the error and
the watch handle, then delete the PresenceRecord; only on a successful
delete are isSharing, currentPosition and accuracy reset. -/
def stopSharing (outc : StopOutcome) (w : World) : World × Bool :=
  let w1 := {w with loading := true, error := "", watch := false}
  match outc with
  | StopOutcome.ok =>
    ({w1 with record := false, sharing := false, currentPosition := none,
              accuracy := none, loading := false}, true)
  | StopOutcome.deleteFail msg =>
    ({w1 with error := msg, loading := false}, false)
  | StopOutcome.threw =>
    ({w1 with error := "Failed to stop location sharing", loading := false}, false)

/-- The unmount cleanup effect (useLocationSharing.js lines 33-42): it
clears the watch handle and the update interval and nothing else — in
particular it issues no store delete, so the record field is untouched. -/
def unmountCleanup (w : World) : World :=
  {w with watch := false}

/-- One external event of a driver session lifecycle: a start attempt with
its environment outcomes, a stop call with its delete outcome, or the
owning-context unmount teardown. -/
inductive SessionEv where
  | start (isDriver isVerified hasUser hasProfile : Bool)
      (permFail : Option String) (acq : AcqOutcome)
  | stop (outc : StopOutcome)
  | unmount
  deriving DecidableEq

/-- Step of the session lifecycle, paired with the specification-side
history flag: the flag records whether the last terminal state the session
reached was Active (set on a successful start) without a completed stop
since (cleared on a successful stop; unmount completes no stop). -/
def annotStep : World × Bool → SessionEv → World × Bool
  | (w, b), SessionEv.start d v hu hp pf acq =>
    let r := startSharing d v hu hp pf acq w
    (r.1, if r.2.1 then true else b)
  | (w, b), SessionEv.stop outc =>
    let r := stopSharing outc w
    (r.1, if r.2 then false else b)
  | (w, b), SessionEv.unmount => (unmountCleanup w, b)

/-- Run of a session from the fresh hook state over a list of events. -/
def sessionRun (tr : List SessionEv) : World × Bool :=
  tr.foldl annotStep (initWorld, false)

/-- A write triggered by one watch callback: the callback delivery time and
the store round-trip latency of its updateDriverLocation call. The
position callback (useLocationSharing.js lines 204-217) starts the write
synchronously when the callback is delivered and nothing gates it on
earlier writes, so the write is issued at the arrival time and resolves
one latency later. -/
structure WatchWrite where
  arrival : ℤ
  latency : ℤ
  pos : GeoPos
  deriving DecidableEq

/-- Time the write of a watch callback is issued: the callback arrival time
(the handler calls updateDriverLocation unconditionally before its only
await). -/
def issueTime (cb : WatchWrite) : ℤ := cb.arrival

/-- Time the write of a watch callback resolves at the store. -/
def resolveTime (cb : WatchWrite) : ℤ := cb.arrival + cb.latency

/-- Insert a write into a list sorted by ascending resolve time. -/
def insertByResolve (x : WatchWrite) : List WatchWrite → List WatchWrite
  | [] => [x]
  | y :: ys =>
    if resolveTime x < resolveTime y then x :: y :: ys
    else y :: insertByResolve x ys

/-- Order in which the store observes a set of issued writes: ascending
resolve time. -/
def observedOrder : List WatchWrite → List WatchWrite
  | [] => []
  | x :: xs => insertByResolve x (observedOrder xs)

/-- Final stored position after all writes resolve: the store keeps the
last write it observes (setDoc with merge overwrites the position fields). -/
def finalStoredPos (ws : List WatchWrite) : Option GeoPos :=
  (observedOrder ws).getLast?.map (fun cb => cb.pos)

/-- Outcome of the updateDriverLocation call awaited inside the position
callback: resolved successfully, resolved with success false, or threw. -/
inductive WriteOutcome where
  | ok
  | failed
  | threw
  deriving DecidableEq

/-- Arrival phase of the position callback (useLocationSharing.js lines
204-210): store the delivered position and accuracy in the hook state and
issue the store write — unconditionally, whatever the current error or
prior write outcomes. -/
def positionCallbackArrival (pos : GeoPos) (w : World) : World × List Effect :=
  ({w with currentPosition := some pos, accuracy := some pos.accuracy},
   [Effect.storeWrite])

/-- Resolution phase of the position callback (useLocationSharing.js lines
210-216): a successful write changes nothing further; a failed or thrown
write only sets the error string. -/
def resolveWriteOutcome (outc : WriteOutcome) (w : World) : World :=
  match outc with
  | WriteOutcome.ok => w
  | WriteOutcome.failed => {w with error := "Failed to update location"}
  | WriteOutcome.threw => {w with error := "Location update failed"}

/-- A JS Error value as delivered to the watch error callback: the wrapper
in locationService.js watchPosition passes new Error(message), which has
neither a code property nor a PERMISSION_DENIED constant. -/
structure JsError where
  message : String
  code : Option ℤ
  permissionDeniedConst : Option ℤ
  deriving DecidableEq

/-- Message mapping of the watchPosition error wrapper (locationService.js
lines 184-199) from the geolocation error code. -/
def watchErrMsg (code : ℤ) : String :=
  if code = 1 then "Location access denied by user"
  else if code = 2 then "Location information unavailable"
  else if code = 3 then "Location request timed out"
  else "Unknown location error"

/-- The error actually handed to the hook by watchPosition: a plain Error
carrying only the mapped message — its code and PERMISSION_DENIED
properties are both undefined. -/
def wrapWatchError (code : ℤ) : JsError :=
  { message := watchErrMsg code, code := none, permissionDeniedConst := none }

/-- The watch error callback (useLocationSharing.js lines 218-225): set the
error string from the message, then stop sharing when
error.code === error.PERMISSION_DENIED. -/
def watchErrorCallback (e : JsError) (outc : StopOutcome) (w : World) : World :=
  let w1 := {w with error := "Location tracking error: " ++ e.message}
  if e.code = e.permissionDeniedConst then (stopSharing outc w1).1 else w1

/-- A concrete position at (40, -74). -/
def geoA : GeoPos :=
  { latitude := 40, longitude := -74, accuracy := 10, heading := none, speed := none }

/-- A concrete position at (41, -73). -/
def geoB : GeoPos :=
  { latitude := 41, longitude := -73, accuracy := 10, heading := none, speed := none }

/-- A concrete hook state of an active sharing session. -/
def activeWorld : World :=
  { sharing := true, loading := false, error := ""
    permission := PermState.granted, currentPosition := some geoA
    accuracy := some 10, watch := true, record := true }

/-- A watch callback arriving at t=1 whose store write takes 5 time units. -/
def wWrite1 : WatchWrite := { arrival := 1, latency := 5, pos := geoA }

/-- A watch callback arriving at t=2 whose store write takes 1 time unit. -/
def wWrite2 : WatchWrite := { arrival := 2, latency := 1, pos := geoB }

/-- A watch callback arriving at t=1 whose store write takes 1 time unit. -/
def uWrite1 : WatchWrite := { arrival := 1, latency := 1, pos := geoA }

/-- A watch callback arriving at t=2 whose store write takes 1 time unit. -/
def uWrite2 : WatchWrite := { arrival := 2, latency := 1, pos := geoB }

/-- A concrete fleet entry with both coordinates supplied. -/
def busAt (i : String) (lat lng : ℚ) : BusDoc :=
  { id := i, busId := i, latitude := some lat, longitude := some lng
    route := "R", status := "active", speed := none, heading := none
    lastUpdated := TimestampVal.missing }

/-- A concrete fleet entry whose latitude is exactly 0, hence falsy. -/
def zeroLatBus : BusDoc :=
  { id := "zero-bus", busId := "Z0", latitude := some 0, longitude := some (-74)
    route := "R", status := "active", speed := none, heading := none
    lastUpdated := TimestampVal.missing }

/-- A concrete presence entry with both coordinates supplied. -/
def driverAt (i : String) (lat lng : ℚ) : DriverDoc :=
  { id := i, userId := i, email := "d@example.com", displayName := "D"
    busNumber := "B9", route := "R", latitude := some lat, longitude := some lng
    accuracy := 10, heading := 0, speed := 0
    timestamp := TimestampVal.firestore 0, isActive := true
    lastSeen := TimestampVal.firestore 0, createdAt := TimestampVal.firestore 0 }

/-- A concrete presence entry whose store write happened at second 0, valid
coordinates at (40, -74). -/
def staleDriverDoc : DriverDoc := driverAt "stale-driver" 40 (-74)

/-- A concrete presence entry whose latitude is exactly 0, hence falsy. -/
def zeroLatDriver : DriverDoc := driverAt "zero-driver" 0 (-74)

/-- Membership in the insertion step of the fleet sort. -/
lemma mem_insertDesc (a x : BusDoc) (l : List BusDoc) :
    a ∈ insertDesc x l ↔ a = x ∨ a ∈ l := by
  induction l with
  | nil => simp [insertDesc]
  | cons y ys ih =>
    unfold insertDesc
    by_cases h : sortKey x < sortKey y
    · rw [if_pos h]
      simp [ih]
      tauto
    · rw [if_neg h]
      simp

/-- The fleet sort is a permutation membership-wise. -/
lemma mem_sortDesc (a : BusDoc) (l : List BusDoc) :
    a ∈ sortDesc l ↔ a ∈ l := by
  induction l with
  | nil => simp [sortDesc]
  | cons x xs ih => simp [sortDesc, mem_insertDesc, ih]

/-- The record field after the acquisition phase: set exactly when the
acquisition succeeded, untouched on every failure branch. -/
lemma acquirePhase_record (acq : AcqOutcome) (permEff : List Effect) (w2 : World) :
    (acquirePhase acq permEff w2).1.record
      = if (acquirePhase acq permEff w2).2.1 then true else w2.record := by
  cases acq <;> simp [acquirePhase]

/-- The record field after startSharing: set exactly when the start
succeeded, untouched on every failure branch. -/
lemma startSharing_record (d v hu hp : Bool) (pf : Option String)
    (acq : AcqOutcome) (w : World) :
    (startSharing d v hu hp pf acq w).1.record
      = if (startSharing d v hu hp pf acq w).2.1 then true else w.record := by
  unfold startSharing
  cases h1 : (!(d && v)) with
  | true => simp
  | false =>
    cases h2 : (!(hu && hp)) with
    | true => simp
    | false =>
      cases h3 : needsPermissionRequest w with
      | true =>
        cases pf with
        | some msg => simp
        | none =>
          exact acquirePhase_record acq [Effect.positionRequest]
            {w with loading := true, error := "", permission := PermState.granted}
      | false =>
        exact acquirePhase_record acq [] {w with loading := true, error := ""}

/-- The record field after stopSharing: cleared exactly when the delete
succeeded, untouched otherwise. -/
lemma stopSharing_record (outc : StopOutcome) (w : World) :
    (stopSharing outc w).1.record
      = if (stopSharing outc w).2 then false else w.record := by
  cases outc <;> simp [stopSharing]

/-- One lifecycle step preserves the agreement between the stored record
and the last-terminal-state-Active flag. -/
lemma annotStep_record {p : World × Bool} (e : SessionEv) (h : p.1.record = p.2) :
    (annotStep p e).1.record = (annotStep p e).2 := by
  obtain ⟨w, b⟩ := p
  cases e with
  | start d v hu hp pf acq =>
    simp only [annotStep]
    rw [startSharing_record]
    by_cases hs : (startSharing d v hu hp pf acq w).2.1 <;> simp_all
  | stop outc =>
    simp only [annotStep]
    rw [stopSharing_record]
    by_cases hs : (stopSharing outc w).2 <;> simp_all
  | unmount => simpa [annotStep, unmountCleanup] using h

/-- The agreement is preserved along any event list. -/
lemma foldl_record (tr : List SessionEv) (p : World × Bool) (h : p.1.record = p.2) :
    (tr.foldl annotStep p).1.record = (tr.foldl annotStep p).2 := by
  induction tr generalizing p with
  | nil => simpa using h
  | cons e es ih =>
    simp only [List.foldl_cons]
    exact ih _ (annotStep_record e h)

/-- C7: for every presence stream, merging it with an empty fleet stream
yields exactly the fixed literal demo fleet entries unioned with the
presence entries; the demo substitution is the explicit empty-snapshot
branch of the fleet subscription, never an error. -/
theorem C7_emptyFleetDemoMerge (nowMs : ℤ) (ds : List DriverDoc) :
    mergeView (snapshotHandler nowMs []) ds
      = (demoBuses nowMs).map MergedEntity.fleet ++ ds.map MergedEntity.presence
    ∧ snapshotHandler nowMs [] = demoBuses nowMs := by
  constructor <;> simp [mergeView, snapshotHandler]

/-- C10: on a fleet-subscription error the callback is still invoked, with
a one-entry demo list holding only demo-bus-1 — a smaller fallback than
the three-entry demo fleet of the empty-snapshot branch, whose first entry
it equals. -/
theorem C10_errorFallbackSingleton (nowMs : ℤ) :
    errorHandlerOutput nowMs = [demoBus1 nowMs]
    ∧ (errorHandlerOutput nowMs).length = 1
    ∧ (snapshotHandler nowMs []).length = 3
    ∧ errorHandlerOutput nowMs ≠ snapshotHandler nowMs []
    ∧ (snapshotHandler nowMs []).head? = some (demoBus1 nowMs) := by
  refine ⟨rfl, rfl, ?_, ?_, ?_⟩ <;>
    simp [snapshotHandler, errorHandlerOutput, demoBuses]

/-- C6: the staleness flag of a presence entry uses a 300-second window on
the store-assigned write timestamp — an entry 301 seconds old is stale, an
entry 299 seconds old is not — and stale entries still render in the
merged output. -/
theorem C6_stalenessWindow (nowMs s1 s2 : ℤ) (d : DriverDoc) (ds : List DriverDoc) :
    (nowMs - s1 * 1000 = 301000 → isStale nowMs (TimestampVal.firestore s1) = true)
    ∧ (nowMs - s2 * 1000 = 299000 → isStale nowMs (TimestampVal.firestore s2) = false)
    ∧ (d ∈ ds → validCoord d.latitude = true → validCoord d.longitude = true →
        (d.id, isRecent nowMs d.timestamp) ∈ driverMarkers nowMs ds) := by
  refine ⟨?_, ?_, ?_⟩
  · intro h
    simp [isStale, isRecent]
    omega
  · intro h
    simp [isStale, isRecent]
    omega
  · intro hmem hlat hlng
    unfold driverMarkers
    exact List.mem_filterMap.mpr ⟨d, hmem, by simp [hlat, hlng]⟩

/-- Witness for C6 at now = 301000 ms: a write at second 0 is stale, one at
second 2 is not, and the stale entry still renders a marker. -/
theorem C6_stalenessWindow_witness :
    isStale 301000 (TimestampVal.firestore 0) = true
    ∧ isStale 301000 (TimestampVal.firestore 2) = false
    ∧ (staleDriverDoc.id, isRecent 301000 staleDriverDoc.timestamp)
        ∈ driverMarkers 301000 [staleDriverDoc] := by
  obtain ⟨h1, h2, h3⟩ :=
    C6_stalenessWindow 301000 0 2 staleDriverDoc [staleDriverDoc]
  exact ⟨h1 (by decide), h2 (by decide),
         h3 (by simp) (by decide) (by decide)⟩

/-- C8: with no selection active, the viewpoint is the arithmetic mean of
latitudes and of longitudes over all entities with valid coordinates —
(40, -74) and (42, -72) average to (41, -73) — and with zero valid
coordinates it is the fixed default center. -/
theorem C8_centroidViewpoint :
    getMapCenter [busAt "b1" 40 (-74)] [driverAt "d1" 42 (-72)]
      = ((41 : ℚ), (-73 : ℚ))
    ∧ ∀ (bs : List BusDoc) (ds : List DriverDoc),
        bs.filter (fun b => validCoord b.latitude && validCoord b.longitude) = [] →
        ds.filter (fun d => validCoord d.latitude && validCoord d.longitude) = [] →
        getMapCenter bs ds = defaultCenter := by
  constructor
  · simp [getMapCenter, busAt, driverAt, validCoord]
    norm_num
  · intro bs ds h1 h2
    simp [getMapCenter, h1, h2]

/-- Witness for C8: with no valid-coordinate entity at all, the viewpoint
is the default center. -/
theorem C8_centroidViewpoint_witness :
    getMapCenter [] [] = defaultCenter :=
  C8_centroidViewpoint.2 [] [] rfl rfl

/-- C9: coordinate validity is a truthiness test — a fleet or presence
entry whose latitude or longitude is 0 or missing is dropped from the
fleet subscription output (triggering the demo substitution even on a
non-empty collection), contributes nothing to the centroid, and renders no
marker: an invalid presence entry leaves both the driver markers and the
viewpoint exactly as if it were absent. -/
theorem C9_truthinessValidity :
    (∀ (nowMs : ℤ) (docs : List BusDoc) (b : BusDoc),
        (validCoord b.latitude && validCoord b.longitude) = false →
        b ∉ snapshotHandler nowMs docs)
    ∧ snapshotHandler 0 [zeroLatBus] = demoBuses 0
    ∧ getMapCenter [zeroLatBus, busAt "b1" 40 (-74)] [] = ((40 : ℚ), (-74 : ℚ))
    ∧ busMarkers [zeroLatBus] = []
    ∧ (∀ (nowMs : ℤ) (d : DriverDoc) (ds : List DriverDoc),
        (validCoord d.latitude && validCoord d.longitude) = false →
        driverMarkers nowMs (d :: ds) = driverMarkers nowMs ds)
    ∧ (∀ (bs : List BusDoc) (d : DriverDoc) (ds : List DriverDoc),
        (validCoord d.latitude && validCoord d.longitude) = false →
        getMapCenter bs (d :: ds) = getMapCenter bs ds)
    ∧ getMapCenter [] [zeroLatDriver, driverAt "d1" 42 (-72)] = ((42 : ℚ), (-72 : ℚ))
    ∧ driverMarkers 0 [zeroLatDriver] = [] := by
  refine ⟨?_, by simp [snapshotHandler, zeroLatBus, validCoord],
         by simp [getMapCenter, zeroLatBus, busAt, validCoord],
         by simp [busMarkers, zeroLatBus, validCoord], ?_, ?_,
         by simp [getMapCenter, zeroLatDriver, driverAt, validCoord],
         by simp [driverMarkers, zeroLatDriver, driverAt, validCoord]⟩
  · intro nowMs docs b h hmem
    unfold snapshotHandler at hmem
    by_cases hc :
        (docs.filter (fun b => validCoord b.latitude && validCoord b.longitude)).length = 0
    · rw [if_pos hc] at hmem
      simp only [demoBuses, List.mem_cons, List.not_mem_nil, or_false] at hmem
      rcases hmem with rfl | rfl | rfl <;>
        norm_num [demoBus1, demoBus2, demoBus3, validCoord] at h
    · rw [if_neg hc] at hmem
      rw [mem_sortDesc] at hmem
      have := List.of_mem_filter hmem
      rw [h] at this
      exact Bool.false_ne_true this
  · intro nowMs d ds h
    have h2 : ¬(validCoord d.latitude = true ∧ validCoord d.longitude = true) := by
      intro hc
      rw [hc.1, hc.2] at h
      exact absurd h (by simp)
    simp [driverMarkers, h2]
  · intro bs d ds h
    simp [getMapCenter, List.filter_cons, h]

/-- Witness for C9: the zero-latitude fleet entry is absent from its own
subscription output, and the zero-latitude presence entry changes neither
the driver markers nor the viewpoint. -/
theorem C9_truthinessValidity_witness :
    zeroLatBus ∉ snapshotHandler 0 [zeroLatBus]
    ∧ driverMarkers 0 [zeroLatDriver] = driverMarkers 0 []
    ∧ getMapCenter [] [zeroLatDriver] = getMapCenter [] [] := by
  obtain ⟨h1, _, _, _, h5, h6, _, _⟩ := C9_truthinessValidity
  exact ⟨h1 0 [zeroLatBus] zeroLatBus (by decide),
         h5 0 zeroLatDriver [] (by decide),
         h6 [] zeroLatDriver [] (by decide)⟩

/-- C3: for every capability pair other than (true, true), startSharing
fails immediately with the capability-denied error, issues zero effects
(no position request, no store write), and leaves the sharing flag, the
watch, the position and the stored record unchanged. -/
theorem C3_capabilityGate (isDriver isVerified hasUser hasProfile : Bool)
    (permFail : Option String) (acq : AcqOutcome) (w : World)
    (h : ¬(isDriver = true ∧ isVerified = true)) :
    startSharing isDriver isVerified hasUser hasProfile permFail acq w
      = ({w with error := capabilityDeniedMsg}, false, [])
    ∧ (startSharing isDriver isVerified hasUser hasProfile permFail acq w).1.sharing
        = w.sharing
    ∧ (startSharing isDriver isVerified hasUser hasProfile permFail acq w).1.record
        = w.record
    ∧ (startSharing isDriver isVerified hasUser hasProfile permFail acq w).1.watch
        = w.watch
    ∧ (startSharing isDriver isVerified hasUser hasProfile permFail acq w).1.currentPosition
        = w.currentPosition
    ∧ (startSharing isDriver isVerified hasUser hasProfile permFail acq w).2.2 = [] := by
  have hb : (!(isDriver && isVerified)) = true := by
    cases isDriver <;> cases isVerified <;> simp_all
  have heq : startSharing isDriver isVerified hasUser hasProfile permFail acq w
      = ({w with error := capabilityDeniedMsg}, false, []) := by
    unfold startSharing
    rw [hb]
    simp
  refine ⟨heq, ?_, ?_, ?_, ?_, ?_⟩ <;> rw [heq]

/-- Witness for C3 at capability pair (false, true) on the fresh state. -/
theorem C3_capabilityGate_witness :
    startSharing false true true true none (AcqOutcome.ok geoA) initWorld
      = ({initWorld with error := capabilityDeniedMsg}, false, [])
    ∧ (startSharing false true true true none (AcqOutcome.ok geoA) initWorld).1.sharing
        = initWorld.sharing
    ∧ (startSharing false true true true none (AcqOutcome.ok geoA) initWorld).1.record
        = initWorld.record
    ∧ (startSharing false true true true none (AcqOutcome.ok geoA) initWorld).1.watch
        = initWorld.watch
    ∧ (startSharing false true true true none (AcqOutcome.ok geoA) initWorld).1.currentPosition
        = initWorld.currentPosition
    ∧ (startSharing false true true true none (AcqOutcome.ok geoA) initWorld).2.2 = [] :=
  C3_capabilityGate false true true true none (AcqOutcome.ok geoA) initWorld
    (by simp)

/-- C5: a failed presence write during an active session resolves by
setting only the error string — the sharing flag, the watch, the current
position and the stored record are exactly as after a successful write
except for the error — and the next watch callback issues a store write
unconditionally (implicit retry, no backoff). -/
theorem C5_writeFailureFrame (w : World) (pos : GeoPos) (h : w.sharing = true) :
    resolveWriteOutcome WriteOutcome.failed w
      = {w with error := "Failed to update location"}
    ∧ (resolveWriteOutcome WriteOutcome.failed w).sharing = true
    ∧ (resolveWriteOutcome WriteOutcome.failed w).watch = w.watch
    ∧ (resolveWriteOutcome WriteOutcome.failed w).currentPosition = w.currentPosition
    ∧ (resolveWriteOutcome WriteOutcome.failed w).record = w.record
    ∧ resolveWriteOutcome WriteOutcome.failed w
        = {resolveWriteOutcome WriteOutcome.ok w with error := "Failed to update location"}
    ∧ (positionCallbackArrival pos w).2 = [Effect.storeWrite]
    ∧ (positionCallbackArrival pos (resolveWriteOutcome WriteOutcome.failed w)).2
        = [Effect.storeWrite] := by
  refine ⟨rfl, ?_, rfl, rfl, rfl, rfl, rfl, rfl⟩
  simpa [resolveWriteOutcome] using h

/-- Witness for C5 on a concrete active session. -/
theorem C5_writeFailureFrame_witness :
    resolveWriteOutcome WriteOutcome.failed activeWorld
      = {activeWorld with error := "Failed to update location"}
    ∧ (resolveWriteOutcome WriteOutcome.failed activeWorld).sharing = true
    ∧ (resolveWriteOutcome WriteOutcome.failed activeWorld).watch = activeWorld.watch
    ∧ (resolveWriteOutcome WriteOutcome.failed activeWorld).currentPosition
        = activeWorld.currentPosition
    ∧ (resolveWriteOutcome WriteOutcome.failed activeWorld).record = activeWorld.record
    ∧ resolveWriteOutcome WriteOutcome.failed activeWorld
        = {resolveWriteOutcome WriteOutcome.ok activeWorld with
            error := "Failed to update location"}
    ∧ (positionCallbackArrival geoB activeWorld).2 = [Effect.storeWrite]
    ∧ (positionCallbackArrival geoB (resolveWriteOutcome WriteOutcome.failed activeWorld)).2
        = [Effect.storeWrite] :=
  C5_writeFailureFrame activeWorld geoB rfl

/-- Counterexample to C1: after a successful start followed by the unmount
teardown, the PresenceRecord still exists — the cleanup effect only clears
the watch and never deletes the record, so the record is not deleted on
unmount teardown as the claim states. -/
theorem C1_counterexample :
    ¬ ((sessionRun [SessionEv.start true true true true none (AcqOutcome.ok geoA),
                    SessionEv.unmount]).1.record = false) := by
  decide

/-- C1 (amended): for every sequence of start and stop calls and unmount
teardowns, a PresenceRecord exists exactly when the last start reached
Active and no stop has successfully completed since; it is created by the
full-field write on first successful acquisition and deleted on stop only —
unmount teardown cancels the watch but leaves the record in place. -/
theorem C1_recordExistence (tr : List SessionEv) :
    (sessionRun tr).1.record = (sessionRun tr).2 :=
  foldl_record tr (initWorld, false) rfl

/-- Counterexample to C2: for watch callbacks P1 (arrival 1, store latency
5) and P2 (arrival 2, latency 1), the write for P2 is issued before the
write for P1 resolves, and the final stored position is the earlier
position of P1 — an earlier position overwrites a later one. -/
theorem C2_counterexample :
    issueTime wWrite2 < resolveTime wWrite1
    ∧ finalStoredPos [wWrite1, wWrite2] = some geoA
    ∧ geoA ≠ geoB := by
  decide

/-- C2 (amended): each watch callback issues its store write immediately at
callback delivery, so issue order follows arrival order; nothing
serializes resolution, so the store observes writes in resolve-time order:
when the earlier write resolves later, the earlier position wins, and only
when it resolves earlier does the later position win. -/
theorem C2_unserializedWrites (w1 w2 u1 u2 : WatchWrite)
    (h : w1.arrival < w2.arrival) (hu : u1.arrival < u2.arrival) :
    issueTime w1 < issueTime w2
    ∧ issueTime w2 = w2.arrival
    ∧ (resolveTime w2 < resolveTime w1 → finalStoredPos [w1, w2] = some w1.pos)
    ∧ (resolveTime u1 < resolveTime u2 → finalStoredPos [u1, u2] = some u2.pos) := by
  refine ⟨h, rfl, ?_, ?_⟩
  · intro hr
    have hnot : ¬ (resolveTime w1 < resolveTime w2) := by omega
    simp [finalStoredPos, observedOrder, insertByResolve, hnot]
  · intro hr
    simp [finalStoredPos, observedOrder, insertByResolve, hr]

/-- Witness for C2 (amended) on the concrete callbacks: out-of-order
resolution stores the earlier position, in-order resolution the later. -/
theorem C2_unserializedWrites_witness :
    issueTime wWrite1 < issueTime wWrite2
    ∧ finalStoredPos [wWrite1, wWrite2] = some wWrite1.pos
    ∧ finalStoredPos [uWrite1, uWrite2] = some uWrite2.pos := by
  obtain ⟨h1, _, h3, h4⟩ :=
    C2_unserializedWrites wWrite1 wWrite2 uWrite1 uWrite2 (by decide) (by decide)
  exact ⟨h1, h3 (by decide), h4 (by decide)⟩

/-- Counterexample to C4: a PermissionDenied error on the watch of an
active session does stop the session, but stopSharing clears the error
string first, so the session does not end with the PermissionDenied error
surfaced — the final error is empty and the sharing flag is simply off. -/
theorem C4_counterexample :
    (watchErrorCallback (wrapWatchError 1) StopOutcome.ok activeWorld).error = ""
    ∧ ¬ ((watchErrorCallback (wrapWatchError 1) StopOutcome.ok activeWorld).error
          = "Location tracking error: Location access denied by user")
    ∧ (watchErrorCallback (wrapWatchError 1) StopOutcome.ok activeWorld).sharing
        = false := by
  decide

/-- C4 (amended): any watch error — the PERMISSION_DENIED test compares two
absent properties of the wrapped Error and therefore holds for every
error code — stops the session: the watch is cancelled, the record
deleted, sharing is off; the stop path resets the error string, leaving an
idle state with an empty error instead of a surfaced PermissionDenied. -/
theorem C4_watchErrorStops (c : ℤ) (w : World) :
    watchErrorCallback (wrapWatchError c) StopOutcome.ok w
      = {w with watch := false, record := false, sharing := false,
                currentPosition := none, accuracy := none,
                error := "", loading := false} := by
  simp [watchErrorCallback, wrapWatchError, stopSharing]

end BusTracker
